import Mathlib

/-!
Shallow embedding of the conversation orchestration core of
`src/components/MKTAI.tsx` (the "8112.AI" consumer-health chat front-end),
together with theorems settling the specification claims about it.

The embedding models the pure decision logic of the component:
the subject selector `getValidProduct`, the memory-window builder, the
suggestion-field resolution, the reveal-delay computation, the turn log
and its two mutation entry points (`submitPair` seeded by
`sendPromptToBackend`, and `updateAgentMsg`), and the success/failure
normalization of a backend response.  JavaScript `undefined`/`null` and
field-absence are made explicit with `Option`; the JS `typeof x ===
"object"` test (which accepts `null` and arrays) is modelled by
`JsField.typeofIsObject`.
-/

namespace MKTAI

/-- Runtime value stored in a field such as `NutritionFacts` or
`IngredientList` of a decoded product candidate, classified the way the
source inspects it with `typeof`.  `absent` is JS `undefined` (missing
key), `nullv` is JS `null`, `object` a plain record, `array` a JS array,
`str` a string. -/
inductive JsField where
  | absent
  | nullv
  | object (entries : List (String × String))
  | array (items : List String)
  | str (s : String)
deriving DecidableEq, Repr

/-- Whether `typeof f === "object"` holds in JavaScript: true for plain
objects, arrays, and — notoriously — `null`; false for `undefined` and
strings. -/
def JsField.typeofIsObject : JsField → Bool
  | .absent => false
  | .nullv => true
  | .object _ => true
  | .array _ => true
  | .str _ => false

/-- One element of a decoded `product_json` array, classified the way the
predicate inside `getValidProduct` (MKTAI.tsx lines 57-62) inspects it:
`nullItem` is `null` (an object by `typeof` but explicitly excluded),
`arrayItem` a nested array (excluded by `Array.isArray`), `nonObject` a
primitive, and `obj` a plain object carrying the two fields the predicate
reads. -/
inductive ProductItem where
  | nullItem
  | arrayItem (items : List String)
  | nonObject (s : String)
  | obj (NutritionFacts : JsField) (IngredientList : JsField)
deriving DecidableEq, Repr

/-- The `product_json` field of a payload as `getValidProduct` receives
it: `noInput` covers both `null` and `undefined` (the `!input` guard),
`single` a bare non-array object, `list` an array of candidates. -/
inductive ProductInput where
  | noInput
  | single (p : ProductItem)
  | list (ps : List ProductItem)
deriving DecidableEq, Repr

/-- The `find` predicate of `getValidProduct`: the element must be a
non-null non-array object whose `NutritionFacts` or `IngredientList`
field has JS `object` type. -/
def isValidCandidate : ProductItem → Bool
  | .obj nf il => nf.typeofIsObject || il.typeofIsObject
  | _ => false

/-- `getValidProduct` (MKTAI.tsx lines 54-63): `null`/`undefined` input
gives no subject; a bare object is returned unchanged; an array yields
its first element satisfying `isValidCandidate`, or no subject.  `none`
models the function returning `null`. -/
def getValidProduct : ProductInput → Option ProductItem
  | .noInput => none
  | .single p => some p
  | .list ps => ps.find? isValidCandidate

/-- The decoded `AgentResponse` record (MKTAI.tsx lines 23-37), restricted
to the fields the orchestration core reads.  Every backend-populated field
is optional; `product_json` folds JS `null`/`undefined` into
`ProductInput.noInput` exactly as the `!input` guard of `getValidProduct`
does. -/
structure AgentResponse where
  user_query : String := ""
  image_data : Option String := none
  product_json : ProductInput := .noInput
  plan : Option String := none
  final_verdict : Option String := none
  reasoning : Option String := none
  next_suggestion : Option (List String) := none
  suggested_next_steps : Option (List String) := none
deriving DecidableEq, Repr

/-- A partial payload as passed to `updateAgentMsg`: an outer `none`
means the key is absent from the update object (so the JS spread keeps
the old value), an outer `some v` means the key is present with value `v`
(which may itself be `null`, e.g. `product_json: null` on the error
path). -/
structure AgentResponseUpdate where
  user_query : Option String := none
  image_data : Option (Option String) := none
  product_json : Option ProductInput := none
  plan : Option (Option String) := none
  final_verdict : Option (Option String) := none
  reasoning : Option (Option String) := none
  next_suggestion : Option (Option (List String)) := none
  suggested_next_steps : Option (Option (List String)) := none
deriving DecidableEq, Repr

/-- The JS spread `{ ...old, ...updates }` of MKTAI.tsx line 341:
field-wise, a key present in `updates` overrides, an absent key keeps the
old value. -/
def mergePayload (old : AgentResponse) (u : AgentResponseUpdate) : AgentResponse where
  user_query := u.user_query.getD old.user_query
  image_data := u.image_data.getD old.image_data
  product_json := u.product_json.getD old.product_json
  plan := u.plan.getD old.plan
  final_verdict := u.final_verdict.getD old.final_verdict
  reasoning := u.reasoning.getD old.reasoning
  next_suggestion := u.next_suggestion.getD old.next_suggestion
  suggested_next_steps := u.suggested_next_steps.getD old.suggested_next_steps

/-- Role tag of a conversation turn. -/
inductive MsgType where
  | user
  | agent
deriving DecidableEq, Repr

/-- One entry of the conversation log (`Message`, MKTAI.tsx lines 39-46).
`isStreaming` is the pending flag of an agent turn; a user turn leaves it
at the JS-falsy default. -/
structure Message where
  id : Nat
  type : MsgType
  content : String
  agentResponse : Option AgentResponse := none
  isStreaming : Bool := false
deriving DecidableEq, Repr

/-- `updateAgentMsg` (MKTAI.tsx lines 338-344): map over the log, and on
the turn whose id matches, spread-merge the partial payload into its
(possibly absent) payload and clear the streaming flag; every other turn
is untouched.  An id matching no turn leaves the log unchanged. -/
def updateAgentMsg (id : Nat) (updates : AgentResponseUpdate) (msgs : List Message) : List Message :=
  msgs.map fun m =>
    if m.id = id then
      { m with agentResponse := some (mergePayload (m.agentResponse.getD {}) updates),
               isStreaming := false }
    else m

/-- JS `s || d` for an optional string: the default wins when the field
is absent or the empty string (both falsy). -/
def jsOrDefault (s : Option String) (d : String) : String :=
  match s with
  | some v => if v = "" then d else v
  | none => d

/-- The line contributed to the memory digest by one turn (MKTAI.tsx
lines 388-394): `User: <content>` for a user turn; `AI Verdict: <final
verdict || "Unknown">` for an agent turn carrying a payload; an agent
turn without a payload contributes nothing (the `else if
(m.agentResponse)` guard). -/
def contextLine (m : Message) : String :=
  match m.type with
  | .user => "User: " ++ m.content ++ "\n"
  | .agent =>
    match m.agentResponse with
    | some ar => "AI Verdict: " ++ jsOrDefault ar.final_verdict "Unknown" ++ "\n"
    | none => ""

/-- The last `n` elements of a list, as JS `slice(-n)` computes them
(the whole list when it is shorter than `n`). -/
def lastN (n : Nat) (l : List α) : List α := l.drop (l.length - n)

/-- The memory digest built by `sendPromptToBackend` (MKTAI.tsx lines
383-396) from the log as it stood before the current submission was
appended: empty for an empty log, otherwise a header, the summary lines
of the last 6 turns, and the current-question marker. -/
def buildContext (log : List Message) : String :=
  if log.length > 0 then
    "PREVIOUS CONVERSATION CONTEXT:\n"
      ++ String.join ((lastN 6 log).map contextLine)
      ++ "\nCURRENT QUESTION:\n"
  else ""

/-- The composed outgoing query (MKTAI.tsx line 398): the digest is
prepended when non-empty, else the prompt goes out alone. -/
def finalPromptToSend (log : List Message) (prompt : String) : String :=
  if buildContext log = "" then prompt else buildContext log ++ prompt

/-- The suggestion-resolution rule of `AgentResponseView` (MKTAI.tsx
lines 137-139): `suggested_next_steps` is used when present and
non-empty (the JS `&& length > 0` check), otherwise `next_suggestion ||
[]`. -/
def resolveSuggestions (suggested_next_steps next_suggestion : Option (List String)) : List String :=
  match suggested_next_steps with
  | some l => if l.length > 0 then l else next_suggestion.getD []
  | none => next_suggestion.getD []

/-- The suggestions shown for a payload. -/
def suggestionsOf (d : AgentResponse) : List String :=
  resolveSuggestions d.suggested_next_steps d.next_suggestion

/-- Number of non-overlapping occurrences of the separator `". "`
consumed in one left-to-right scan, exactly as the JS
`split(". ")` scanner consumes them. -/
def dotSpaceSplits : List Char → Nat
  | '.' :: ' ' :: rest => dotSpaceSplits rest + 1
  | _ :: rest => dotSpaceSplits rest
  | [] => 0

/-- The length of JS `s.split(". ")`: one more segment than there are
consumed separators. -/
def planSegmentCount (s : String) : Nat := dotSpaceSplits s.data + 1

/-- The plan-step counter of the reveal scheduler (MKTAI.tsx line 438):
`data.plan ? Math.min(data.plan.split(". ").length, 5) : 3`.  An absent
or empty (falsy) plan defaults to 3; otherwise the number of `". "`
separated segments, capped at 5. -/
def planStepCount (plan : Option String) : Nat :=
  match plan with
  | some p => if p = "" then 3 else min (planSegmentCount p) 5
  | none => 3

/-- `animationTime` (MKTAI.tsx line 439):
`Math.min(Math.max(planStepCount * 1000, 3000), 8000)`. -/
def animationTime (plan : Option String) : Nat :=
  min (max (planStepCount plan * 1000) 3000) 8000

/-- Milliseconds after the backend call completes at which the success
path clears the processing indicator: the `setTimeout(...,
animationTime)` of MKTAI.tsx lines 443-446 runs `setIsProcessing(false)`
and empties the process log. -/
def indicatorClearDelay (plan : Option String) : Nat := animationTime plan

/-- JS truthiness of the `data.final_verdict` guard of MKTAI.tsx line
142: false when the field is absent or the empty string. -/
def verdictTruthy (v : Option String) : Bool :=
  match v with
  | some s => s != ""
  | none => false

/-- Milliseconds after the backend call completes at which
`AgentResponseView` enters its results phase: the effect of MKTAI.tsx
lines 141-150 arms its 1500 ms `setTimeout` before `setShowResults(true)`
only under `!isProcessing && data.final_verdict`, that is once
`isProcessing` has turned false (at `animationTime`) and only when the
merged payload carries a truthy final verdict; with the verdict absent
or empty the timer is never armed and the results phase never begins
(`none`). -/
def revealTime (plan : Option String) (final_verdict : Option String) : Option Nat :=
  if verdictTruthy final_verdict then some (animationTime plan + 1500) else none

/-- A backend HTTP response: status code plus the error body as the
source embeds it (`JSON.stringify` of the decoded error detail). -/
structure BackendResponse where
  status : Nat
  body : String
deriving DecidableEq, Repr

/-- The `res.ok` test of `fetch`: status in the 2xx range. -/
def resOk (r : BackendResponse) : Bool := 200 ≤ r.status && r.status ≤ 299

/-- The message of the error thrown on a non-2xx response (MKTAI.tsx
line 426). -/
def serverErrorMessage (r : BackendResponse) : String :=
  "Server Error " ++ toString r.status ++ ": " ++ r.body

/-- The fallback partial payload written to the agent turn on the error
path (MKTAI.tsx lines 450-454): verdict CAUTION, reasoning embedding the
thrown message, `product_json` explicitly nulled. -/
def fallbackUpdate (r : BackendResponse) : AgentResponseUpdate where
  final_verdict := some (some "CAUTION")
  reasoning := some (some ("Error connecting to AI Server: " ++ serverErrorMessage r ++ "."))
  product_json := some .noInput

/-- The plan field as the reveal scheduler reads it off a decoded update
object: present only when the key was sent with a string value. -/
def updatePlan (u : AgentResponseUpdate) : Option String :=
  match u.plan with
  | some (some p) => some p
  | _ => none

/-- Outcome of `sendPromptToBackend` once the fetch has resolved: the
partial payload merged into the agent turn, the in-flight flag right
after the synchronous handling, and the delay of the scheduled
indicator-clearing timer (`none` when the indicator was cleared
immediately, as on the error path). -/
structure DispatchOutcome where
  update : AgentResponseUpdate
  isProcessingAfter : Bool
  scheduledClear : Option Nat
deriving DecidableEq, Repr

/-- Resolution of a completed fetch (MKTAI.tsx lines 424-457): a 2xx
response merges the decoded body and schedules the indicator to clear
after `animationTime`; a non-2xx response throws into the catch block,
which merges the fallback payload and clears the in-flight flag and
indicator at once, with no timer. -/
def dispatchResolve (r : BackendResponse) (decoded : AgentResponseUpdate) : DispatchOutcome :=
  if resOk r then
    { update := decoded,
      isProcessingAfter := true,
      scheduledClear := some (animationTime (updatePlan decoded)) }
  else
    { update := fallbackUpdate r,
      isProcessingAfter := false,
      scheduledClear := none }

/-- The component state touched by the submission path: the log, the
text-input value, and the in-flight flag.  `nextId` models the
time-derived id counter (`Date.now()`), unique and increasing within a
session. -/
structure AppState where
  messages : List Message
  inputValue : String
  isProcessing : Bool
  nextId : Nat
deriving DecidableEq, Repr

/-- The initial component state. -/
def initState : AppState :=
  { messages := [], inputValue := "", isProcessing := false, nextId := 0 }

/-- The synchronous prefix of `sendPromptToBackend` (MKTAI.tsx lines
358-381): set the in-flight flag and append the user turn followed by
its pending agent turn, the latter seeded with the query and the image
reference. -/
def submitPair (prompt : String) (imageData : Option String) (s : AppState) : AppState :=
  { s with
    isProcessing := true
    messages := s.messages ++
      [ { id := s.nextId, type := .user, content := prompt },
        { id := s.nextId + 1, type := .agent, content := "",
          agentResponse := some { user_query := prompt, image_data := imageData },
          isStreaming := true } ]
    nextId := s.nextId + 2 }

/-- JS `String.prototype.trim`: strip leading and trailing whitespace,
modelled structurally over the character list. -/
def jsTrim (s : String) : String :=
  ⟨(((s.data.dropWhile Char.isWhitespace).reverse.dropWhile Char.isWhitespace).reverse)⟩

/-- `handleSubmit` (MKTAI.tsx lines 460-466): dispatch only when the
trimmed input is non-empty and nothing is in flight; the returned flag
records whether a backend request was issued. -/
def handleSubmit (s : AppState) : AppState × Bool :=
  if jsTrim s.inputValue ≠ "" ∧ s.isProcessing = false then
    ({ submitPair s.inputValue none s with inputValue := "" }, true)
  else
    (s, false)

/-- A session consisting of `prompts` successive submitted actions, each
running the synchronous append of `sendPromptToBackend`. -/
def runSubmits (prompts : List String) (s : AppState) : AppState :=
  prompts.foldl (fun st p => submitPair p none st) s

/-- The turn pairs that `prompts` successive submissions append when the
id counter starts at `n`. -/
def turnPairs (n : Nat) : List String → List Message
  | [] => []
  | p :: ps =>
      { id := n, type := .user, content := p } ::
      { id := n + 1, type := .agent, content := "",
        agentResponse := some { user_query := p, image_data := none },
        isStreaming := true } ::
      turnPairs (n + 2) ps

/-! Spec-side definitions.  Each follows the words of a claim (not the
source), so that a claim can be compared against the embedded code. -/

/-- Modelled from the claim wording of C5: one summary line for each
turn, an agent turn always contributing `AI Verdict: <final verdict, or
"Unknown" if absent>`, where only a missing verdict field counts as
absent. -/
def claimContextLine (m : Message) : String :=
  match m.type with
  | .user => "User: " ++ m.content ++ "\n"
  | .agent => "AI Verdict: " ++ ((m.agentResponse.bind (fun ar => ar.final_verdict)).getD "Unknown") ++ "\n"

/-- Modelled from the claim wording of C5: empty log gives the empty
string; otherwise header, one line per turn of the last six, marker. -/
def claimBuildContext (log : List Message) : String :=
  if log.length > 0 then
    "PREVIOUS CONVERSATION CONTEXT:\n"
      ++ String.join ((lastN 6 log).map claimContextLine)
      ++ "\nCURRENT QUESTION:\n"
  else ""

/-- The summary line of the amended claim C5: an agent turn carrying a
payload renders its verdict, with `Unknown` when the verdict is absent
or the empty string. -/
def amendedContextLine (m : Message) : String :=
  match m.type with
  | .user => "User: " ++ m.content ++ "\n"
  | .agent =>
    "AI Verdict: "
      ++ (match m.agentResponse.bind (fun ar => ar.final_verdict) with
          | some v => if v = "" then "Unknown" else v
          | none => "Unknown")
      ++ "\n"

/-- Modelled from the claim wording of C8: the newer field wins whenever
it is present, else the older field, else the empty list. -/
def claimResolveSuggestions (suggested_next_steps next_suggestion : Option (List String)) : List String :=
  match suggested_next_steps with
  | some l => l
  | none => next_suggestion.getD []

/-- Modelled from the claim wording of C2: the count of plan steps
capped at 5, defaulting to 3 when no plan was returned. -/
def claimPlanStepCount (plan : Option String) : Nat :=
  match plan with
  | some p => min (planSegmentCount p) 5
  | none => 3

/-! Helper lemmas shared by the claim theorems. -/

theorem runSubmits_messages (prompts : List String) (s : AppState) :
    (runSubmits prompts s).messages = s.messages ++ turnPairs s.nextId prompts := by
  induction prompts generalizing s with
  | nil => simp [runSubmits, turnPairs]
  | cons p ps ih =>
    simp only [runSubmits, List.foldl_cons] at *
    rw [ih]
    simp [submitPair, turnPairs]

theorem turnPairs_length (n : Nat) (prompts : List String) :
    (turnPairs n prompts).length = 2 * prompts.length := by
  induction prompts generalizing n with
  | nil => simp [turnPairs]
  | cons p ps ih => simp [turnPairs, ih]; ring

theorem turnPairs_user_get (n : Nat) (prompts : List String) (k : Nat) :
    (turnPairs n prompts)[2 * k]? =
      prompts[k]?.map fun p => { id := n + 2 * k, type := .user, content := p } := by
  induction prompts generalizing n k with
  | nil => simp [turnPairs]
  | cons p ps ih =>
    match k with
    | 0 => simp [turnPairs]
    | k + 1 =>
      have e2 : n + 2 * (k + 1) = n + 2 + 2 * k := by ring
      rw [e2]
      have e : 2 * (k + 1) = 2 * k + 1 + 1 := by ring
      rw [e]
      simp only [turnPairs, List.getElem?_cons_succ]
      exact ih (n + 2) k

theorem turnPairs_agent_get (n : Nat) (prompts : List String) (k : Nat) :
    (turnPairs n prompts)[2 * k + 1]? =
      prompts[k]?.map fun p =>
        { id := n + 2 * k + 1, type := .agent, content := "",
          agentResponse := some { user_query := p, image_data := none },
          isStreaming := true } := by
  induction prompts generalizing n k with
  | nil => simp [turnPairs]
  | cons p ps ih =>
    match k with
    | 0 => simp [turnPairs]
    | k + 1 =>
      have e2 : n + 2 * (k + 1) = n + 2 + 2 * k := by ring
      rw [e2]
      have e : 2 * (k + 1) + 1 = 2 * k + 1 + 1 + 1 := by ring
      rw [e]
      simp only [turnPairs, List.getElem?_cons_succ]
      exact ih (n + 2) k

theorem updateAgentMsg_length (id : Nat) (u : AgentResponseUpdate) (msgs : List Message) :
    (updateAgentMsg id u msgs).length = msgs.length := by
  simp [updateAgentMsg]

theorem updateAgentMsg_get (id : Nat) (u : AgentResponseUpdate) (msgs : List Message) (k : Nat) :
    (updateAgentMsg id u msgs)[k]? =
      msgs[k]?.map fun m =>
        if m.id = id then
          { m with agentResponse := some (mergePayload (m.agentResponse.getD {}) u),
                   isStreaming := false }
        else m := by
  simp [updateAgentMsg, List.getElem?_map]

theorem updateAgentMsg_of_ne (id : Nat) (u : AgentResponseUpdate) (msgs : List Message)
    (k : Nat) (m : Message) (hm : msgs[k]? = some m) (hne : m.id ≠ id) :
    (updateAgentMsg id u msgs)[k]? = some m := by
  rw [updateAgentMsg_get, hm]
  simp [hne]

theorem updateAgentMsg_noop (id : Nat) (u : AgentResponseUpdate) (msgs : List Message)
    (h : ∀ m ∈ msgs, m.id ≠ id) : updateAgentMsg id u msgs = msgs := by
  unfold updateAgentMsg
  induction msgs with
  | nil => rfl
  | cons a as ih =>
    simp only [List.map_cons]
    rw [if_neg (h a (List.mem_cons_self a as)),
        ih (fun m hm => h m (List.mem_cons_of_mem a hm))]

theorem find?_first (p : α → Bool) (l : List α) (i : Nat) (h : i < l.length)
    (hfirst : ∀ j (hj : j < i), p (l.get ⟨j, Nat.lt_trans hj h⟩) = false)
    (hp : p (l.get ⟨i, h⟩) = true) :
    l.find? p = some (l.get ⟨i, h⟩) := by
  induction l generalizing i with
  | nil => exact absurd h (Nat.not_lt_zero i)
  | cons a as ih =>
    match i with
    | 0 =>
      have ha : p a = true := hp
      simp [List.find?, ha]
    | i + 1 =>
      have ha : p a = false := hfirst 0 (Nat.succ_pos i)
      have hi : i < as.length := by simpa using Nat.lt_of_succ_lt_succ h
      simp only [List.find?, ha]
      exact ih i hi (fun j hj => hfirst (j + 1) (Nat.succ_lt_succ hj)) hp

theorem lastN_length (n : Nat) (l : List α) : (lastN n l).length = min n l.length := by
  simp [lastN]
  omega

/-! The claim theorems. -/

/-- C2: for every merged payload the reveal delay equals
`clamp(planStepCount * 1000, 3000, 8000)` with `planStepCount` the count
of plan steps capped at 5 and defaulting to 3 when no plan was returned;
a 2-step plan gives 3000 ms, a 10-step plan gives 5000 ms, and no plan
gives 3000 ms.  The scheduled indicator timer of a resolved dispatch
carries exactly this delay. -/
theorem C2_reveal_delay_formula :
    (∀ plan : Option String,
        animationTime plan = min (max (claimPlanStepCount plan * 1000) 3000) 8000) ∧
    (∀ r d, (dispatchResolve r d).scheduledClear =
        if resOk r then
          some (min (max (claimPlanStepCount (updatePlan d) * 1000) 3000) 8000)
        else none) ∧
    planSegmentCount "Check ingredients. Assess risks" = 2 ∧
    animationTime (some "Check ingredients. Assess risks") = 3000 ∧
    planSegmentCount "A1. B2. C3. D4. E5. F6. G7. H8. I9. J10" = 10 ∧
    animationTime (some "A1. B2. C3. D4. E5. F6. G7. H8. I9. J10") = 5000 ∧
    animationTime none = 3000 := by
  have key : ∀ plan : Option String,
      animationTime plan = min (max (claimPlanStepCount plan * 1000) 3000) 8000 := by
    intro plan
    match plan with
    | none => rfl
    | some p =>
      by_cases hp : p = ""
      · subst hp; decide
      · simp [animationTime, planStepCount, claimPlanStepCount, hp]
  refine ⟨key, ?_, by decide, by decide, by decide, by decide, by decide⟩
  intro r d
  by_cases hr : resOk r
  · simp [dispatchResolve, hr, key]
  · simp [dispatchResolve, hr]

/-- C7: the Subject Selector maps an absent subject to no subject,
returns a bare object unchanged, and on an array returns the first
element that is a non-array object whose nutrition-facts or
ingredient-list field has object type, or no subject when none
qualifies. -/
theorem C7_subject_selector :
    getValidProduct .noInput = none ∧
    (∀ p, getValidProduct (.single p) = some p) ∧
    (∀ p, isValidCandidate p = true ↔
        ∃ nf il, p = .obj nf il ∧
          (nf.typeofIsObject = true ∨ il.typeofIsObject = true)) ∧
    (∀ ps i (h : i < ps.length),
        (∀ j (hj : j < i), isValidCandidate (ps.get ⟨j, Nat.lt_trans hj h⟩) = false) →
        isValidCandidate (ps.get ⟨i, h⟩) = true →
        getValidProduct (.list ps) = some (ps.get ⟨i, h⟩)) ∧
    (∀ ps, (∀ p ∈ ps, isValidCandidate p = false) → getValidProduct (.list ps) = none) ∧
    getValidProduct (.list
      [ .nonObject "x",
        .obj (.object [("Energy", "100kcal")]) .absent,
        .obj .absent .absent ]) =
      some (.obj (.object [("Energy", "100kcal")]) .absent) := by
  refine ⟨rfl, fun p => rfl, ?_, ?_, ?_, by decide⟩
  · intro p
    match p with
    | .nullItem => simp [isValidCandidate]
    | .arrayItem items => simp [isValidCandidate]
    | .nonObject s => simp [isValidCandidate]
    | .obj nf il =>
      simp only [isValidCandidate, Bool.or_eq_true]
      constructor
      · intro h
        exact ⟨nf, il, rfl, h⟩
      · rintro ⟨nf1, il1, heq, h1⟩
        cases heq
        exact h1
  · intro ps i h hfirst hp
    exact find?_first isValidCandidate ps i h hfirst hp
  · intro ps h
    simp only [getValidProduct]
    rw [List.find?_eq_none]
    intro x hx
    simp [h x hx]

/-- C7 witness: the general clauses instantiated on concrete arrays —
the first qualifying element of a mixed array is selected, and an array
with no qualifying element gives no subject. -/
theorem C7_subject_selector_witness :
    getValidProduct (.list [.nonObject "x", .obj (.array ["water"]) .absent]) =
      some (.obj (.array ["water"]) .absent) ∧
    getValidProduct (.list [.nonObject "x", .nullItem, .obj .absent (.str "y")]) = none := by
  constructor
  · exact C7_subject_selector.2.2.2.1 _ 1 (by decide)
      (fun j hj => by
        have hj0 : j = 0 := by omega
        subst hj0
        rfl)
      (by decide)
  · exact C7_subject_selector.2.2.2.2.1 _ (by decide)

/-- C10: the qualification test of the Subject Selector accepts a field
that merely has JS object type, so `NutritionFacts: null` qualifies
(`typeof null === "object"`), and such an element is selected ahead of a
later element with usable data. -/
theorem C10_null_nutrition_selected :
    JsField.typeofIsObject .nullv = true ∧
    isValidCandidate (.obj .nullv .absent) = true ∧
    getValidProduct (.list
      [ .obj .nullv .absent,
        .obj (.object [("Protein", "10g")]) (.array ["water", "oats"]) ]) =
      some (.obj .nullv .absent) := by decide

/-- C9: a submission through the text input whose value is empty or all
whitespace is a no-op in every state: the state (log, input, in-flight
flag) is unchanged and no backend request is dispatched. -/
theorem C9_blank_submission_noop (s : AppState)
    (h : ∀ c ∈ s.inputValue.data, c.isWhitespace = true) :
    handleSubmit s = (s, false) := by
  have h1 : s.inputValue.data.dropWhile Char.isWhitespace = [] :=
    List.dropWhile_eq_nil_iff.mpr h
  have h2 : jsTrim s.inputValue = "" := by simp [jsTrim, h1]
  unfold handleSubmit
  rw [if_neg]
  simp [h2]

/-- C9 witness: the no-op on a concrete state holding a whitespace-only
input. -/
theorem C9_blank_submission_noop_witness :
    handleSubmit { messages := [], inputValue := "   ", isProcessing := false, nextId := 4 } =
      ({ messages := [], inputValue := "   ", isProcessing := false, nextId := 4 }, false) :=
  C9_blank_submission_noop _ (by decide)

/-- C6: the payload merge is field-wise and additive — a field set by an
earlier update and not named in a later one survives, merging a verdict
then a reasoning leaves both set — the pending flag is cleared on the
merged turn, and a merge aimed at an unknown identifier leaves the log
exactly unchanged (and, being a total function, never throws). -/
theorem C6_merge_additive :
    (∀ msgs id u, (∀ m ∈ msgs, m.id ≠ id) → updateAgentMsg id u msgs = msgs) ∧
    (∀ (p : AgentResponse) (r : String),
        (mergePayload (mergePayload p { final_verdict := some (some "SAFE") })
            { reasoning := some (some r) }).final_verdict = some "SAFE" ∧
        (mergePayload (mergePayload p { final_verdict := some (some "SAFE") })
            { reasoning := some (some r) }).reasoning = some r) ∧
    (∀ (old : AgentResponse) (u : AgentResponseUpdate),
        (u.final_verdict = none → (mergePayload old u).final_verdict = old.final_verdict) ∧
        (u.reasoning = none → (mergePayload old u).reasoning = old.reasoning) ∧
        (u.product_json = none → (mergePayload old u).product_json = old.product_json) ∧
        (u.plan = none → (mergePayload old u).plan = old.plan) ∧
        (u.next_suggestion = none → (mergePayload old u).next_suggestion = old.next_suggestion) ∧
        (u.suggested_next_steps = none →
            (mergePayload old u).suggested_next_steps = old.suggested_next_steps) ∧
        (u.user_query = none → (mergePayload old u).user_query = old.user_query) ∧
        (u.image_data = none → (mergePayload old u).image_data = old.image_data)) ∧
    (∀ msgs id u m, m ∈ updateAgentMsg id u msgs → m.id = id → m.isStreaming = false) := by
  refine ⟨fun msgs id u h => updateAgentMsg_noop id u msgs h, ?_, ?_, ?_⟩
  · intro p r
    constructor <;> simp [mergePayload]
  · intro old u
    refine ⟨?_, ?_, ?_, ?_, ?_, ?_, ?_, ?_⟩ <;> (intro h; simp [mergePayload, h])
  · intro msgs id u m hm hid
    simp only [updateAgentMsg, List.mem_map] at hm
    obtain ⟨m0, hm0, rfl⟩ := hm
    by_cases h : m0.id = id
    · simp [h]
    · rw [if_neg h] at hid ⊢
      exact absurd hid h

/-- C6 witness: the unknown-identifier no-op, the two-step merge, and
the frame clauses instantiated on a concrete log and payload. -/
theorem C6_merge_additive_witness :
    updateAgentMsg 99 { final_verdict := some (some "SAFE") }
        [{ id := 0, type := .user, content := "hi" }] =
      [{ id := 0, type := .user, content := "hi" }] ∧
    (mergePayload (mergePayload {} { final_verdict := some (some "SAFE") })
        { reasoning := some (some "ok") }).final_verdict = some "SAFE" ∧
    (mergePayload ({ final_verdict := some "SAFE" } : AgentResponse)
        { reasoning := some (some "ok") }).final_verdict = some "SAFE" :=
  ⟨C6_merge_additive.1 _ 99 _ (by decide),
   (C6_merge_additive.2.1 {} "ok").1,
   (C6_merge_additive.2.2.1 { final_verdict := some "SAFE" }
      { reasoning := some (some "ok") }).1 rfl⟩

/-- C3: a non-2xx backend response resolves into the CAUTION fallback —
its reasoning embedding the HTTP status and the server-provided error
body, its subject explicitly cleared — with the in-flight flag dropped
at once and no reveal timer scheduled, so that a fresh submission with a
non-blank input dispatches immediately. -/
theorem C3_backend_error_fallback (r : BackendResponse) (hr : resOk r = false) :
    (∀ d, dispatchResolve r d =
        { update := fallbackUpdate r, isProcessingAfter := false, scheduledClear := none }) ∧
    (∀ p : AgentResponse,
        (mergePayload p (fallbackUpdate r)).final_verdict = some "CAUTION" ∧
        (mergePayload p (fallbackUpdate r)).reasoning =
          some ("Error connecting to AI Server: "
                 ++ ("Server Error " ++ toString r.status ++ ": " ++ r.body) ++ ".") ∧
        (mergePayload p (fallbackUpdate r)).product_json = .noInput) ∧
    (∀ s : AppState, s.isProcessing = false → jsTrim s.inputValue ≠ "" →
        (handleSubmit s).2 = true) := by
  refine ⟨?_, ?_, ?_⟩
  · intro d
    simp [dispatchResolve, hr]
  · intro p
    refine ⟨?_, ?_, ?_⟩ <;>
      simp [mergePayload, fallbackUpdate, serverErrorMessage]
  · intro s h1 h2
    unfold handleSubmit
    rw [if_pos ⟨h2, h1⟩]

/-- C3 witness: a simulated HTTP 500 with a concrete error body produces
the fallback outcome, and a ready state with a non-blank input
dispatches. -/
theorem C3_backend_error_fallback_witness :
    dispatchResolve ⟨500, "missing field"⟩ {} =
      { update := fallbackUpdate ⟨500, "missing field"⟩,
        isProcessingAfter := false, scheduledClear := none } ∧
    (mergePayload {} (fallbackUpdate ⟨500, "missing field"⟩)).reasoning =
      some "Error connecting to AI Server: Server Error 500: missing field." ∧
    (handleSubmit { messages := [], inputValue := "Is X safe?",
                    isProcessing := false, nextId := 0 }).2 = true := by
  refine ⟨(C3_backend_error_fallback ⟨500, "missing field"⟩ (by decide)).1 {}, ?_,
    (C3_backend_error_fallback ⟨500, "missing field"⟩ (by decide)).2.2 _ rfl (by decide)⟩
  rw [((C3_backend_error_fallback ⟨500, "missing field"⟩ (by decide)).2.1 {}).2.1]
  decide

/-- C4: every submission appends exactly one user turn carrying the
submitted text followed by one pending agent turn; after N submissions
the log has exactly 2N entries whose even positions are the user turns
in submission order and whose odd positions are their pending agent
turns; a payload merge never changes the log's length or touches a turn
with a different identifier, and a merge aimed at an (odd) agent
identifier leaves every user (even) position untouched. -/
theorem C4_log_append_only :
    (∀ p img s, (submitPair p img s).messages = s.messages ++
        [ { id := s.nextId, type := .user, content := p },
          { id := s.nextId + 1, type := .agent, content := "",
            agentResponse := some { user_query := p, image_data := img },
            isStreaming := true } ]) ∧
    (∀ prompts, (runSubmits prompts initState).messages.length = 2 * prompts.length) ∧
    (∀ prompts k,
        (runSubmits prompts initState).messages[2 * k]? =
          prompts[k]?.map (fun p => { id := 2 * k, type := .user, content := p }) ∧
        (runSubmits prompts initState).messages[2 * k + 1]? =
          prompts[k]?.map (fun p =>
            { id := 2 * k + 1, type := .agent, content := "",
              agentResponse := some { user_query := p, image_data := none },
              isStreaming := true })) ∧
    (∀ id u msgs, (updateAgentMsg id u msgs).length = msgs.length) ∧
    (∀ (id : Nat) (u : AgentResponseUpdate) (msgs : List Message) (k : Nat) (m : Message),
        msgs[k]? = some m → m.id ≠ id →
        (updateAgentMsg id u msgs)[k]? = some m) ∧
    (∀ prompts k id u, id % 2 = 1 →
        (updateAgentMsg id u (runSubmits prompts initState).messages)[2 * k]? =
          (runSubmits prompts initState).messages[2 * k]?) := by
  have hmsgs : ∀ prompts, (runSubmits prompts initState).messages = turnPairs 0 prompts := by
    intro prompts
    rw [runSubmits_messages]
    rfl
  have huser : ∀ prompts k,
      (runSubmits prompts initState).messages[2 * k]? =
        prompts[k]?.map (fun p => { id := 2 * k, type := .user, content := p }) := by
    intro prompts k
    rw [hmsgs]
    have := turnPairs_user_get 0 prompts k
    simpa using this
  refine ⟨fun p img s => rfl, ?_, ?_, updateAgentMsg_length, ?_, ?_⟩
  · intro prompts
    rw [hmsgs, turnPairs_length]
  · intro prompts k
    refine ⟨huser prompts k, ?_⟩
    rw [hmsgs]
    have := turnPairs_agent_get 0 prompts k
    simpa using this
  · intro id u msgs k m hm hne
    exact updateAgentMsg_of_ne id u msgs k m hm hne
  · intro prompts k id u hodd
    rcases h : (runSubmits prompts initState).messages[2 * k]? with _ | m
    · rw [updateAgentMsg_get, h]
      rfl
    · have hu := huser prompts k
      rw [h] at hu
      rcases Option.map_eq_some'.mp hu.symm with ⟨p, hp, hmp⟩
      have hid : m.id = 2 * k := by rw [← hmp]
      exact updateAgentMsg_of_ne id u _ _ m h (by omega)

/-- C4 witness: two concrete submissions produce the four expected
entries in order, and a merge at the second agent turn's id leaves the
first pair untouched. -/
theorem C4_log_append_only_witness :
    (runSubmits ["Is X safe?", "Thanks"] initState).messages.length = 4 ∧
    (runSubmits ["Is X safe?", "Thanks"] initState).messages[2]? =
      some { id := 2, type := .user, content := "Thanks" } ∧
    (updateAgentMsg 3 { final_verdict := some (some "SAFE") }
        (runSubmits ["Is X safe?", "Thanks"] initState).messages)[0]? =
      (runSubmits ["Is X safe?", "Thanks"] initState).messages[0]? := by
  refine ⟨C4_log_append_only.2.1 _, ?_, ?_⟩
  · have := (C4_log_append_only.2.2.1 ["Is X safe?", "Thanks"] 1).1
    simpa using this
  · exact C4_log_append_only.2.2.2.2.2 ["Is X safe?", "Thanks"] 0 3
      { final_verdict := some (some "SAFE") } (by decide)

/-- C5 counterexample: on a log whose agent turn carries the empty
string as its final verdict — a present field — the code renders
`Unknown` (the JS `||` treats the empty string as falsy), while the
claim's digest renders the verdict itself; the two digests differ. -/
theorem C5_memory_digest_counterexample :
    buildContext
        [{ id := 1, type := .agent, content := "",
           agentResponse := some { final_verdict := some "" } }] ≠
      claimBuildContext
        [{ id := 1, type := .agent, content := "",
           agentResponse := some { final_verdict := some "" } }] := by decide

/-- C5 amended: `buildContext` on an empty log is the empty string; on a
non-empty log it is the header, one summary line per turn of the last
`min(6, length)` turns — `User: <content>` for user turns, `AI Verdict:
<verdict, or "Unknown" when the verdict is absent or empty>` for agent
turns carrying a payload (as every agent turn the app creates does) —
then the marker line; and the digest is prepended verbatim to the
outgoing query. -/
theorem C5_memory_digest_amended (log : List Message)
    (hpayload : ∀ m ∈ log, m.type = .agent → m.agentResponse ≠ none) :
    (log.length = 0 → buildContext log = "") ∧
    (log.length > 0 → buildContext log =
        "PREVIOUS CONVERSATION CONTEXT:\n"
          ++ String.join ((lastN 6 log).map amendedContextLine)
          ++ "\nCURRENT QUESTION:\n") ∧
    (lastN 6 log).length = min 6 log.length ∧
    (∀ prompt, finalPromptToSend log prompt = buildContext log ++ prompt) := by
  have hline : ∀ m ∈ lastN 6 log, contextLine m = amendedContextLine m := by
    intro m hm
    have hmem : m ∈ log := List.mem_of_mem_drop hm
    match htype : m.type with
    | .user => simp [contextLine, amendedContextLine, htype]
    | .agent =>
      rcases har : m.agentResponse with _ | ar
      · exact absurd har (hpayload m hmem htype)
      · rcases hv : ar.final_verdict with _ | v
        · simp [contextLine, amendedContextLine, htype, har, hv, jsOrDefault]
          decide
        · by_cases hv0 : v = "" <;>
            (simp [contextLine, amendedContextLine, htype, har, hv, jsOrDefault, hv0]
             try decide)
  refine ⟨?_, ?_, lastN_length 6 log, ?_⟩
  · intro h0
    simp [buildContext, h0]
  · intro hpos
    rw [buildContext, if_pos hpos, List.map_congr_left hline]
  · intro prompt
    unfold finalPromptToSend
    by_cases hc : buildContext log = ""
    · rw [if_pos hc, hc]
      simp
    · rw [if_neg hc]

/-- C5 witness: the amended digest evaluated on a concrete two-turn log
with a payload-carrying agent turn. -/
theorem C5_memory_digest_amended_witness :
    buildContext
        [ { id := 0, type := .user, content := "Is X safe?" },
          { id := 1, type := .agent, content := "",
            agentResponse := some { user_query := "Is X safe?", final_verdict := some "SAFE" },
            isStreaming := false } ] =
      "PREVIOUS CONVERSATION CONTEXT:\nUser: Is X safe?\nAI Verdict: SAFE\n\nCURRENT QUESTION:\n" := by
  rw [(C5_memory_digest_amended
        [ { id := 0, type := .user, content := "Is X safe?" },
          { id := 1, type := .agent, content := "",
            agentResponse := some { user_query := "Is X safe?", final_verdict := some "SAFE" },
            isStreaming := false } ]
        (by decide)).2.1 (by decide)]
  decide

/-- C8 counterexample: with both suggestion fields present but the newer
one empty, the code falls back to the older field (the JS guard demands
`length > 0`), while the claim's rule lets the newer field win; the two
resolutions differ, and the rendered suggestions are the older list. -/
theorem C8_suggestions_counterexample :
    resolveSuggestions (some []) (some ["Check the label"]) ≠
      claimResolveSuggestions (some []) (some ["Check the label"]) ∧
    suggestionsOf
        { suggested_next_steps := some [], next_suggestion := some ["Check the label"] } =
      ["Check the label"] := by decide

/-- C8 amended: the follow-up list is resolved by a single rule in which
the newer field wins when present and non-empty, otherwise the older
field is used (empty when absent), and the result is empty when neither
field is present. -/
theorem C8_suggestions_amended :
    (∀ d : AgentResponse,
        suggestionsOf d = resolveSuggestions d.suggested_next_steps d.next_suggestion) ∧
    (∀ (l : List String) ns, l ≠ [] → resolveSuggestions (some l) ns = l) ∧
    (∀ ns, resolveSuggestions (some []) ns = ns.getD []) ∧
    (∀ ns, resolveSuggestions none ns = ns.getD []) ∧
    resolveSuggestions none none = [] := by
  refine ⟨fun d => rfl, ?_, fun ns => rfl, fun ns => rfl, rfl⟩
  intro l ns hl
  simp [resolveSuggestions, List.length_pos.mpr hl]

/-- C8 witness: the amended rule on concrete field values — a non-empty
newer field wins, an absent newer field falls back, absent both gives
the empty list. -/
theorem C8_suggestions_amended_witness :
    resolveSuggestions (some ["More detail"]) (some ["Other"]) = ["More detail"] ∧
    resolveSuggestions none (some ["Other"]) = ["Other"] ∧
    resolveSuggestions none none = [] :=
  ⟨C8_suggestions_amended.2.1 ["More detail"] (some ["Other"]) (by decide),
   C8_suggestions_amended.2.2.2.1 (some ["Other"]),
   C8_suggestions_amended.2.2.2.2⟩

/-- C1 counterexample: on a successful dispatch with no plan and the
truthy verdict `SAFE`, the processing indicator clears 3000 ms after
the backend call completes, but the Thinking-to-Results transition
fires only 4500 ms after it — the two do not occur at the same moment
as the claim states. -/
theorem C1_reveal_together_counterexample :
    revealTime none (some "SAFE") ≠ some (indicatorClearDelay none) := by decide

/-- C1 amended: for a successful dispatch the processing indicator
clears exactly `animationTime` (3000-8000 ms) after the backend call
completed; the phase transition to Results does not coincide with it —
when the merged payload carries a truthy (present, non-empty) final
verdict it occurs 1500 ms after the indicator clears, so the viewer
sees between 4500 and 9500 ms of thinking, and when the verdict is
absent or empty the results phase never begins; the scheduled timer of
a resolved dispatch carries exactly the indicator delay on success and
none on failure. -/
theorem C1_reveal_schedule_amended :
    (∀ plan, indicatorClearDelay plan = animationTime plan ∧
        3000 ≤ indicatorClearDelay plan ∧ indicatorClearDelay plan ≤ 8000 ∧
        4500 ≤ animationTime plan + 1500 ∧ animationTime plan + 1500 ≤ 9500) ∧
    (∀ plan v, verdictTruthy v = true →
        revealTime plan v = some (indicatorClearDelay plan + 1500)) ∧
    (∀ plan v, verdictTruthy v = false → revealTime plan v = none) ∧
    (∀ r d, (dispatchResolve r d).scheduledClear =
        if resOk r then some (indicatorClearDelay (updatePlan d)) else none) := by
  refine ⟨?_, ?_, ?_, ?_⟩
  · intro plan
    refine ⟨rfl, ?_, ?_, ?_, ?_⟩ <;>
      (simp only [indicatorClearDelay, animationTime]; omega)
  · intro plan v hv
    simp [revealTime, indicatorClearDelay, hv]
  · intro plan v hv
    simp [revealTime, hv]
  · intro r d
    by_cases hr : resOk r <;> simp [dispatchResolve, indicatorClearDelay, hr]

/-- C1 witness: with no plan, a truthy verdict reveals at 4500 ms —
1500 ms after the indicator clears at 3000 ms — while an absent or
empty verdict never reveals. -/
theorem C1_reveal_schedule_amended_witness :
    revealTime none (some "SAFE") = some (indicatorClearDelay none + 1500) ∧
    revealTime none none = none ∧
    revealTime none (some "") = none :=
  ⟨C1_reveal_schedule_amended.2.1 none (some "SAFE") (by decide),
   C1_reveal_schedule_amended.2.2.1 none none (by decide),
   C1_reveal_schedule_amended.2.2.1 none (some "") (by decide)⟩

end MKTAI
